import Mathlib

/-
  Verification of the site configuration constants in
  src/constants/site.ts: the exported structures SITE, NAV_ITEMS and
  FOOTER_LINKS are embedded as Lean values and the spec's testable
  properties are proved about them.
-/

namespace SiteConfig

/-- One social-media entry of SITE.social: platform name, icon
identifier, profile url and display handle. -/
structure SocialLink where
  name : String
  icon : String
  url : String
  handle : String
deriving DecidableEq

/-- The organization identity object SITE from src/constants/site.ts. -/
structure Site where
  name : String
  fullName : String
  tagline : String
  url : String
  email : String
  mission : String
  social : List SocialLink
deriving DecidableEq

/-- One entry of the NAV_ITEMS array: a route and its display label. -/
structure NavItem where
  href : String
  label : String
deriving DecidableEq

/-- One footer link: a target, a label, and the optional boolean flag
marking the link as leaving the site (absent in the source for internal
links, modelled as none). -/
structure FooterLink where
  href : String
  label : String
  external : Option Bool
deriving DecidableEq

/-- The FOOTER_LINKS object: its three named ordered link groups. -/
structure FooterLinks where
  quickLinks : List FooterLink
  resources : List FooterLink
  legal : List FooterLink
deriving DecidableEq

/-- The apostrophe character, used inside the mission text. -/
def apos : String := String.singleton (Char.ofNat 39)

/-- The exported constant SITE from src/constants/site.ts, field by
field as written in the source. -/
def SITE : Site :=
  { name := "APDI"
    fullName := "Association for the Protection of Digital Innovation"
    tagline := "Protecting Digital Innovation"
    url := "https://apdigh.org"
    email := "contact@apdigh.org"
    mission := "Protecting Ghana" ++ apos ++ "s digital innovation sector by informing citizens about tech bills and their impacts on startups, innovation, and the digital economy."
    social :=
      [ { name := "Twitter"
          icon := "ti ti-brand-x"
          url := "https://twitter.com/apdigh"
          handle := "@apdigh" },
        { name := "YouTube"
          icon := "ti ti-brand-youtube"
          url := "https://www.youtube.com/@apdigh"
          handle := "@apdigh" } ] }

/-- The exported constant NAV_ITEMS from src/constants/site.ts. -/
def NAV_ITEMS : List NavItem :=
  [ { href := "/", label := "Home" },
    { href := "/bills", label := "Bills" },
    { href := "/about", label := "About" } ]

/-- The exported constant FOOTER_LINKS from src/constants/site.ts. -/
def FOOTER_LINKS : FooterLinks :=
  { quickLinks :=
      [ { href := "/bills", label := "All Bills", external := none },
        { href := "/about", label := "About Us", external := none } ]
    resources :=
      [ { href := "https://github.com/apdigh-org/apdigh.org"
          label := "GitHub Repository"
          external := some true } ]
    legal :=
      [ { href := "/about#transparency", label := "AI Transparency", external := none } ] }

/-- Whether the first character of a string is the given character. -/
def firstCharIs (s : String) (c : Char) : Bool :=
  match s.toList with
  | [] => false
  | x :: _ => x == c

/-- Splitting a character list at every occurrence of the separator
character, in the manner of splitOn. -/
def splitOnChar (c : Char) : List Char → List (List Char)
  | [] => [[]]
  | x :: xs =>
      match splitOnChar c xs with
      | [] => if x == c then [[], []] else [[x]]
      | p :: ps => if x == c then [] :: p :: ps else (x :: p) :: ps

/-- Splitting a character list at the first occurrence of the scheme
separator of a URL: some (scheme part, remainder) when the separator
occurs, none otherwise. -/
def splitSchemeRest : List Char → Option (List Char × List Char)
  | [] => none
  | c :: cs =>
      if List.isPrefixOf ([':', '/', '/']) (c :: cs) then
        some ([], (c :: cs).drop 3)
      else
        (splitSchemeRest cs).map (fun p => (c :: p.1, p.2))

/-- Syntactic validity of an absolute URL in the sense of the spec:
a non-empty alphabetic scheme, the separator, and a non-empty host
(the part of the remainder before the first slash). -/
def isValidAbsoluteUrl (s : String) : Bool :=
  match splitSchemeRest s.toList with
  | some (scheme, rest) =>
      !scheme.isEmpty && scheme.all Char.isAlpha &&
      !(rest.takeWhile (fun c => !(c == '/'))).isEmpty
  | none => false

/-- Syntactic validity of an email address in the sense of the spec:
exactly one at-sign separating a non-empty local part from a domain
made of at least two non-empty dot-separated labels. -/
def isValidEmail (s : String) : Bool :=
  match splitOnChar ('@') s.toList with
  | [lp, dom] =>
      !lp.isEmpty &&
      (let labels := splitOnChar ('.') dom
       2 ≤ labels.length && labels.all (fun l => !l.isEmpty))
  | _ => false

/-- The footer-link wellformedness rule of the spec: an entry whose
external flag is true carries a valid absolute URL; any other entry
(flag false or absent) carries a site-relative href. -/
def footerLinkWellFormed (e : FooterLink) : Bool :=
  match e.external with
  | some true => isValidAbsoluteUrl e.href
  | _ => firstCharIs e.href ('/')

/-- All entries of all three FOOTER_LINKS groups, in order. -/
def allFooterLinks (f : FooterLinks) : List FooterLink :=
  f.quickLinks ++ f.resources ++ f.legal

/-- Reading the exported SITE binding: importing the module and
evaluating the constant, modelled as a function of the (irrelevant)
read occasion. -/
def readSITE : Unit → Site := fun _ => SITE

/-- Reading the exported NAV_ITEMS binding. -/
def readNavItems : Unit → List NavItem := fun _ => NAV_ITEMS

/-- Reading the exported FOOTER_LINKS binding. -/
def readFooterLinks : Unit → FooterLinks := fun _ => FOOTER_LINKS

end SiteConfig

namespace SiteConfig

set_option maxRecDepth 8192

/-- C1: NAV_ITEMS is a list of exactly 3 entries whose hrefs, in order,
are "/", "/bills", "/about" and whose labels, in order, are "Home",
"Bills", "About". -/
theorem nav_items_exact :
    NAV_ITEMS.length = 3 ∧
    NAV_ITEMS.map NavItem.href = ["/", "/bills", "/about"] ∧
    NAV_ITEMS.map NavItem.label = ["Home", "Bills", "About"] := by
  decide

/-- C2: SITE.social has exactly 2 entries whose name fields are
"Twitter" and "YouTube", and each entry has a non-empty handle whose
first character is the at-sign. -/
theorem site_social_exact :
    SITE.social.length = 2 ∧
    SITE.social.map SocialLink.name = ["Twitter", "YouTube"] ∧
    ∀ s ∈ SITE.social, 0 < s.handle.length ∧ firstCharIs s.handle ('@') = true := by
  decide

/-- C3: FOOTER_LINKS.resources is a list of exactly 1 entry, that entry
has external equal to true and href equal to the GitHub repository URL. -/
theorem footer_resources_exact :
    FOOTER_LINKS.resources.length = 1 ∧
    ∀ e ∈ FOOTER_LINKS.resources,
      e.external = some true ∧ e.href = "https://github.com/apdigh-org/apdigh.org" := by
  decide

/-- C4: SITE.name equals "APDI" and SITE.tagline equals
"Protecting Digital Innovation". -/
theorem site_name_tagline :
    SITE.name = "APDI" ∧ SITE.tagline = "Protecting Digital Innovation" := by
  decide

/-- C5: every entry of every FOOTER_LINKS group is well formed: external
entries carry a syntactically valid absolute URL, all other entries a
href starting with a slash. -/
theorem footer_links_well_formed :
    ∀ e ∈ allFooterLinks FOOTER_LINKS, footerLinkWellFormed e = true := by
  decide

/-- Witness for C5: the first quick link is in the footer groups and is
well formed. -/
theorem footer_links_well_formed_witness :
    footerLinkWellFormed { href := "/bills", label := "All Bills", external := none } = true :=
  footer_links_well_formed { href := "/bills", label := "All Bills", external := none } (by decide)

/-- C6: every entry of NAV_ITEMS has a href starting with a slash and a
non-empty label. -/
theorem nav_items_well_formed :
    ∀ e ∈ NAV_ITEMS, firstCharIs e.href ('/') = true ∧ 0 < e.label.length := by
  decide

/-- Witness for C6: the home entry is in NAV_ITEMS and is well formed. -/
theorem nav_items_well_formed_witness :
    firstCharIs (NavItem.href { href := "/", label := "Home" }) ('/') = true ∧
    0 < (NavItem.label { href := "/", label := "Home" }).length :=
  nav_items_well_formed { href := "/", label := "Home" } (by decide)

/-- C7: SITE.url is a syntactically valid absolute URL, SITE.email is a
syntactically valid email address, and every SITE.social entry has a
valid absolute URL and a non-empty handle. -/
theorem site_urls_email_valid :
    isValidAbsoluteUrl SITE.url = true ∧
    isValidEmail SITE.email = true ∧
    ∀ s ∈ SITE.social, isValidAbsoluteUrl s.url = true ∧ 0 < s.handle.length := by
  decide

/-- C8: every string field of SITE (including every field of every
social entry), of every NAV_ITEMS entry and of every entry of every
FOOTER_LINKS group is non-empty. -/
theorem all_string_fields_nonempty :
    0 < SITE.name.length ∧ 0 < SITE.fullName.length ∧ 0 < SITE.tagline.length ∧
    0 < SITE.url.length ∧ 0 < SITE.email.length ∧ 0 < SITE.mission.length ∧
    (∀ s ∈ SITE.social,
      0 < s.name.length ∧ 0 < s.icon.length ∧ 0 < s.url.length ∧ 0 < s.handle.length) ∧
    (∀ e ∈ NAV_ITEMS, 0 < e.href.length ∧ 0 < e.label.length) ∧
    (∀ e ∈ allFooterLinks FOOTER_LINKS, 0 < e.href.length ∧ 0 < e.label.length) := by
  decide

/-- C9: reading the exported structures twice within the same process
yields identical values: the reads are deterministic, independent of
the read occasion. -/
theorem exports_deterministic :
    ∀ u v : Unit,
      readSITE u = readSITE v ∧
      readNavItems u = readNavItems v ∧
      readFooterLinks u = readFooterLinks v := by
  intro u v
  exact ⟨rfl, rfl, rfl⟩

/-- C10: every href of FOOTER_LINKS.quickLinks is also the href of some
NAV_ITEMS entry: the footer quick links point only at routes already in
the primary navigation. -/
theorem quick_links_subset_nav :
    ∀ e ∈ FOOTER_LINKS.quickLinks, ∃ n ∈ NAV_ITEMS, n.href = e.href := by
  decide

/-- Witness for C10: the quick link to the bills page has a matching
navigation entry. -/
theorem quick_links_subset_nav_witness :
    ∃ n ∈ NAV_ITEMS,
      n.href = FooterLink.href { href := "/bills", label := "All Bills", external := none } :=
  quick_links_subset_nav { href := "/bills", label := "All Bills", external := none } (by decide)

end SiteConfig
